import Mathlib

/-!
Shallow embedding of `src/merger.py`: a script that walks a directory tree,
collects every file whose name ends (case-insensitively) in `.dcm`, extracts a
configured set of DICOM tags from each parseable file, and streams the result
into a `;`-delimited table (header row of tag keys plus a trailing `FilePath`
column, one data row per successfully parsed file).

Modelling conventions:
  * Strings are Lean `String`s; Python `str` operations used by the script
    (`strip`, `split(",")`, `replace(';', ',')`, `lower`, `endswith`) are
    embedded as functions over `String.data`.
  * A DICOM dataset is a finite association list from `(group, element)` tags
    to the display string `str(element.value)` of the element's value; an
    element that is absent (or whose value is `None`) is simply not in the
    list, which yields the same observable behaviour (an empty output cell).
  * Exceptions become `Option`: a function that can raise returns `none` where
    the Python code raises, and the caller's `try/except` is a `match`.
  * `random.sample(population, k)` raises `ValueError` exactly when
    `k > len(population)`; the model keeps that definedness condition and lets
    the sampled value itself depend on an explicit `seed` parameter (the value
    only ever reaches the debug log).
  * The wall-clock start time (used only in the log-file path) and the random
    seed are explicit parameters of the run, so that independence of the
    output from both is a provable statement rather than an artefact.
-/

set_option autoImplicit false

namespace Merger

/-- Hexadecimal value of one character, as accepted by Python `int(x, 16)`. -/
def hexVal (c : Char) : Option Nat :=
  if '0' ≤ c ∧ c ≤ '9' then some (c.toNat - '0'.toNat)
  else if 'a' ≤ c ∧ c ≤ 'f' then some (c.toNat - 'a'.toNat + 10)
  else if 'A' ≤ c ∧ c ≤ 'F' then some (c.toNat - 'A'.toNat + 10)
  else none

/-- Run of hexadecimal digits with single underscores allowed between digits
(Python numeric-literal rule used by `int(x, 16)`). The flag records whether
the previous character was a digit (so an underscore is currently legal and
the run may legally end). -/
def hexRun : List Char → Bool → Nat → Option Nat
  | [], sawDigit, acc => if sawDigit then some acc else none
  | '_' :: rest, sawDigit, acc => if sawDigit then hexRun rest false acc else none
  | c :: rest, _, acc =>
      match hexVal c with
      | some d => hexRun rest true (acc * 16 + d)
      | none => none

/-- Digit part of `int(x, 16)` after the optional sign: an optional `0x`/`0X`
prefix (an underscore may follow the prefix), then hex digits. -/
def pyIntHexCore (cs : List Char) : Option Nat :=
  match cs with
  | '0' :: 'x' :: '_' :: rest => hexRun rest false 0
  | '0' :: 'x' :: rest => hexRun rest false 0
  | '0' :: 'X' :: '_' :: rest => hexRun rest false 0
  | '0' :: 'X' :: rest => hexRun rest false 0
  | _ => hexRun cs false 0

/-- Whitespace characters stripped by Python `int`. -/
def pyWhitespace (c : Char) : Bool :=
  c = ' ' ∨ c = '\t' ∨ c = '\n' ∨ c = '\r' ∨ c = '\x0b' ∨ c = '\x0c'

/-- Drop the characters satisfying `bad` from both ends of a character list
(Python `str.strip(chars)`). -/
def stripChars (bad : Char → Bool) (cs : List Char) : List Char :=
  ((cs.dropWhile bad).reverse.dropWhile bad).reverse

/-- Python `int(s, 16)`: surrounding whitespace, an optional sign, an optional
`0x` prefix, hex digits. `none` models a raised `ValueError`. -/
def pyIntHex (s : String) : Option Int :=
  match stripChars pyWhitespace s.data with
  | '+' :: rest => (pyIntHexCore rest).map Int.ofNat
  | '-' :: rest => (pyIntHexCore rest).map (fun n => -(Int.ofNat n))
  | cs => (pyIntHexCore cs).map Int.ofNat

/-- Python `s.split(",")`: split at every comma, keeping empty pieces. -/
def splitComma : List Char → List (List Char)
  | [] => [[]]
  | ',' :: rest => [] :: splitComma rest
  | c :: rest =>
      match splitComma rest with
      | [] => [[c]]
      | g :: gs => (c :: g) :: gs

/-- `pydicom.tag.Tag((g, e))`: accepts exactly a pair of integers each within
the unsigned 16-bit range, otherwise raises (`none`). -/
def pydicomTag (g e : Int) : Option (Nat × Nat) :=
  if 0 ≤ g ∧ g ≤ 65535 ∧ 0 ≤ e ∧ e ≤ 65535 then some (g.toNat, e.toNat) else none

/-- `convert_string_to_tag` from `merger.py`: strip the enclosing parentheses,
split on commas, parse each piece as hexadecimal, build a `Tag`. Any raised
exception (wrong number of pieces, unparsable hex, out-of-range component)
is `none`. -/
def convert_string_to_tag (tag_str : String) : Option (Nat × Nat) :=
  match splitComma (stripChars (fun c => c = '(' ∨ c = ')') tag_str.data) with
  | [gs, es] =>
      match pyIntHex (String.mk gs), pyIntHex (String.mk es) with
      | some g, some e => pydicomTag g e
      | _, _ => none
  | _ => none

/-- `str(value).replace(';', ',')` from line 172 of `merger.py` (replacement
of a single character is a character map). -/
def pyReplaceSemi (s : String) : String :=
  String.mk (s.data.map (fun c => if c = ';' then ',' else c))

/-- A decoded DICOM dataset: tags paired with the display strings of their
values. -/
abbrev Dataset := List ((Nat × Nat) × String)

/-- `ds.get(tag, None)` followed by `.value`: the display string of the tag's
value when present. -/
def dsGet (ds : Dataset) (t : Nat × Nat) : Option String :=
  (ds.find? (fun p => p.1 == t)).map Prod.snd

/-- Body of the per-field loop (lines 163-173 of `merger.py`): parse the key
as a tag and look it up; any exception, or an absent tag, yields the empty
string, otherwise the sanitized display string. -/
def extractField (ds : Dataset) (tag_str : String) : String :=
  match convert_string_to_tag tag_str with
  | none => ""
  | some t =>
      match dsGet ds t with
      | none => ""
      | some v => pyReplaceSemi v

/-- One file on disk, as the run sees it: its path (the discoverer produces
paths; we keep the joined path as a single string) and either its decoded
metadata section or `none` when `pydicom.dcmread` raises (corrupt file). -/
structure DicomFile where
  name : String
  parsed : Option Dataset
deriving DecidableEq

/-- Python `str.lower()`, characterwise. -/
def lowerStr (s : String) : String :=
  String.mk (s.data.map Char.toLower)

/-- `file.lower().endswith('.dcm')` from `list_dicom_files`
(`endswith` is suffix comparison, embedded over the character list). -/
def isDicomName (s : String) : Bool :=
  List.isSuffixOf ['.', 'd', 'c', 'm'] (lowerStr s).data

/-- `list_dicom_files` from `merger.py`: every file in the tree whose name
ends, case-insensitively, in `.dcm`, in traversal order. -/
def list_dicom_files (fs : List DicomFile) : List DicomFile :=
  fs.filter (fun f => isDicomName f.name)

/-- `random.sample(xs, k)` with an explicit seed: raises `ValueError` (here
`none`) exactly when `k` exceeds the population size; otherwise some
seed-dependent selection of `k` elements, which the script only prints to the
debug log. -/
def pySample (seed : Nat) (xs : List String) (k : Nat) : Option (List String) :=
  if k ≤ xs.length then some ((xs.rotate (seed % (xs.length + 1))).take k) else none

/-- State of the `selected_tags.json` collaborator: missing file, present but
undecodable JSON, or a decoded object whose keys (in order) are the tag
strings. -/
inductive TagsFile where
  | missing
  | badJson
  | loaded (keys : List String)
deriving DecidableEq

/-- How a run of `main()` ends. `noInput`, `noTagsFile` and `badTagsJson` are
the `return 1` branches before the output file is opened; `sampleAbort` is the
uncaught `ValueError` raised by `random.sample(dicom_files, 10)` on line 128;
`completed` carries the rows written to the output file (header first). -/
inductive RunResult where
  | noInput
  | sampleAbort
  | noTagsFile
  | badTagsJson
  | completed (table : List (List String))
deriving DecidableEq

/-- Per-file body of the processing loop (lines 152-181): a corrupt file is
caught by the per-file handler and skipped (no row). A parseable file must
then survive the debug f-string on line 159, which indexes `ds_keys[0]` and
`list(selected_tags.keys())[0]`: when the decoded dataset is empty, or the
Field Specification has no keys, that indexing raises `IndexError`, the
per-file handler at line 180 catches it, and the file contributes no row
either. Only then does the file yield the row of extracted fields followed
by its path. -/
def processFile (keys : List String) (f : DicomFile) : Option (List String) :=
  match f.parsed with
  | none => none
  | some ds =>
      if ds.isEmpty || keys.isEmpty then none
      else some (keys.map (extractField ds) ++ [f.name])

/-- The full table written to the output file: header (tag keys then
`FilePath`), then one row per successfully parsed file. -/
def runTable (keys : List String) (files : List DicomFile) : List (List String) :=
  (keys ++ ["FilePath"]) :: files.filterMap (processFile keys)

/-- Control flow of `main()` after discovery: empty discovery returns early;
then the debug `random.sample` call may raise; then the tags file is loaded;
then the table is written. -/
def mergerResult (files : List DicomFile) (tf : TagsFile) (seed : Nat) : RunResult :=
  if files.isEmpty then .noInput
  else
    match pySample seed (files.map (fun f => f.name)) 10 with
    | none => .sampleAbort
    | some _ =>
        match tf with
        | .missing => .noTagsFile
        | .badJson => .badTagsJson
        | .loaded keys => .completed (runTable keys files)

/-- Observable state of one whole script run. `outputDirPrepared` records
whether `os.makedirs(os.path.dirname(output_dir), exist_ok=True)` was
executed; `debugLog` holds the seed-dependent debug line. -/
structure ScriptRun where
  logPath : String
  outputDirPrepared : Bool
  debugLog : List String
  result : RunResult
deriving DecidableEq

/-- One run of the script. `startTime` is the wall-clock timestamp baked into
the log path (line 28); `rootExists` is `os.path.exists(path_shared_folder)`:
the output directory is created only when the root is absent (lines 117-119),
and walking an absent root yields no files. -/
def mergerRun (startTime : String) (seed : Nat) (rootExists : Bool)
    (fs : List DicomFile) (tf : TagsFile) : ScriptRun :=
  let files := if rootExists then list_dicom_files fs else []
  { logPath := "logs/" ++ startTime ++ "_merger.log"
    outputDirPrepared := !rootExists
    debugLog :=
      match pySample seed (files.map (fun f => f.name)) 10 with
      | some sample =>
          if files.isEmpty then [] else ["DICOM files: " ++ String.intercalate ", " sample]
      | none => []
    result := mergerResult files tf seed }

/-- `';'.join(cells)`. -/
def joinCells : List String → String
  | [] => ""
  | [c] => c
  | c :: cs => c ++ ";" ++ joinCells cs

/-- Bytes of the output file: one `;`-joined line per table row, each
newline-terminated; no quoting or escaping of cell contents. -/
def fileContent (table : List (List String)) : String :=
  String.join (table.map (fun row => joinCells row ++ "\n"))

/-- Content of the output file produced by a run, or `none` when the run ends
before `open(output_dir, 'w')` on line 147, in which case no file exists. -/
def outputFile : RunResult → Option String
  | .completed t => some (fileContent t)
  | _ => none

/-- Data rows of a run's table (everything below the header). -/
def tableDataRows : RunResult → List (List String)
  | .completed t => t.drop 1
  | _ => []

/-- Number of `;` characters in a string. -/
def semiCount (s : String) : Nat := s.data.count ';'

/-- Number of `;`-separated columns of one output line. -/
def numColumns (line : String) : Nat := semiCount line + 1

/-- Value `main()` returns, or `none` when it ends in an uncaught exception.
Every `return` statement of `main` returns the literal `1` (lines 126, 134,
141, 184). -/
def mainReturnValue : RunResult → Option Nat
  | .sampleAbort => none
  | _ => some 1

/-- The `__main__` wrapper (lines 186-199) sets `success = False` only when
`main()` raises; any returned value, including the `return 1` error branches,
is reported as `Script completed successfully.`. -/
def scriptReportsSuccess (r : RunResult) : Bool :=
  (mainReturnValue r).isSome

/-! ### Concrete fixtures used by witnesses and counterexamples -/

/-- Dataset holding only the PatientName tag `(0010,0010)`. -/
def dsAlice : Dataset := [((16, 16), "Alice")]

/-- Ten well-formed files, enough to survive the `random.sample` debug call. -/
def tenFiles : List DicomFile :=
  [⟨"f0.dcm", some dsAlice⟩, ⟨"f1.dcm", some dsAlice⟩, ⟨"f2.dcm", some dsAlice⟩,
   ⟨"f3.dcm", some dsAlice⟩, ⟨"f4.dcm", some dsAlice⟩, ⟨"f5.dcm", some dsAlice⟩,
   ⟨"f6.dcm", some dsAlice⟩, ⟨"f7.dcm", some dsAlice⟩, ⟨"f8.dcm", some dsAlice⟩,
   ⟨"f9.dcm", some dsAlice⟩]

/-- Ten files of which the last has a `;` in its path. -/
def semiPathFiles : List DicomFile :=
  [⟨"f0.dcm", some dsAlice⟩, ⟨"f1.dcm", some dsAlice⟩, ⟨"f2.dcm", some dsAlice⟩,
   ⟨"f3.dcm", some dsAlice⟩, ⟨"f4.dcm", some dsAlice⟩, ⟨"f5.dcm", some dsAlice⟩,
   ⟨"f6.dcm", some dsAlice⟩, ⟨"f7.dcm", some dsAlice⟩, ⟨"f8.dcm", some dsAlice⟩,
   ⟨"a;b.dcm", some dsAlice⟩]

/-- Ten files of which the last decodes successfully but to an empty main
dataset (a valid DICOM file: preamble and file meta only). -/
def emptyMetaFiles : List DicomFile :=
  [⟨"f0.dcm", some dsAlice⟩, ⟨"f1.dcm", some dsAlice⟩, ⟨"f2.dcm", some dsAlice⟩,
   ⟨"f3.dcm", some dsAlice⟩, ⟨"f4.dcm", some dsAlice⟩, ⟨"f5.dcm", some dsAlice⟩,
   ⟨"f6.dcm", some dsAlice⟩, ⟨"f7.dcm", some dsAlice⟩, ⟨"f8.dcm", some dsAlice⟩,
   ⟨"empty.dcm", some []⟩]

/-- The spec scenario for C1: three matching files, the third corrupt; the
valid ones carry tag `(0010,0010)` and nothing else. -/
def threeFiles : List DicomFile :=
  [⟨"a.dcm", some dsAlice⟩, ⟨"b.dcm", some dsAlice⟩, ⟨"c.dcm", none⟩]

/-- Two-field specification: the first field is present in every valid file
of the fixtures above, the second in none. -/
def twoKeys : List String := ["(0010,0010)", "(0020,000D)"]

/-! ### Helper lemmas -/

theorem semiCount_append (a b : String) :
    semiCount (a ++ b) = semiCount a + semiCount b := by
  simp [semiCount, String.data_append, List.count_append]

theorem semiCount_replaceSemi (v : String) : semiCount (pyReplaceSemi v) = 0 := by
  simp only [semiCount, pyReplaceSemi]
  rw [List.count_eq_zero]
  intro hmem
  obtain ⟨c, _, hc⟩ := List.mem_map.mp hmem
  by_cases h : c = ';' <;> simp [h] at hc

theorem semiCount_extractField (ds : Dataset) (s : String) :
    semiCount (extractField ds s) = 0 := by
  unfold extractField
  cases convert_string_to_tag s with
  | none => rfl
  | some t =>
      show semiCount (match dsGet ds t with
        | none => ""
        | some v => pyReplaceSemi v) = 0
      cases dsGet ds t with
      | none => rfl
      | some v => exact semiCount_replaceSemi v

theorem semiCount_joinCells (cells : List String) (lastc : String)
    (h : ∀ c ∈ cells, semiCount c = 0) :
    semiCount (joinCells (cells ++ [lastc])) = cells.length + semiCount lastc := by
  induction cells with
  | nil => simp [joinCells]
  | cons c cs ih =>
      have hc : semiCount c = 0 := h c (by simp)
      have hcs : ∀ x ∈ cs, semiCount x = 0 := fun x hx => h x (by simp [hx])
      have hjoin : joinCells ((c :: cs) ++ [lastc]) = c ++ ";" ++ joinCells (cs ++ [lastc]) := by
        cases cs <;> rfl
      rw [hjoin, semiCount_append, semiCount_append, hc, ih hcs]
      have hsemi : semiCount ";" = 1 := rfl
      rw [hsemi]
      simp [List.length_cons]
      omega

theorem mergerRun_result (t : String) (seed : Nat) (re : Bool)
    (fs : List DicomFile) (tf : TagsFile) :
    (mergerRun t seed re fs tf).result =
      mergerResult (if re then list_dicom_files fs else []) tf seed := rfl

theorem mergerResult_completed (files : List DicomFile) (tf : TagsFile) (seed : Nat)
    (table : List (List String))
    (h : mergerResult files tf seed = .completed table) :
    ∃ keys, tf = .loaded keys ∧ table = runTable keys files := by
  unfold mergerResult at h
  split at h
  · exact absurd h (by simp)
  · split at h
    · exact absurd h (by simp)
    · split at h
      · exact absurd h (by simp)
      · exact absurd h (by simp)
      · exact ⟨_, rfl, (RunResult.completed.inj h).symm⟩

theorem processFile_some (keys : List String) (f : DicomFile) (row : List String)
    (h : processFile keys f = some row) :
    ∃ ds, f.parsed = some ds ∧ row = keys.map (extractField ds) ++ [f.name] := by
  unfold processFile at h
  cases hp : f.parsed with
  | none => rw [hp] at h; exact absurd h (by simp)
  | some ds =>
      rw [hp] at h
      replace h : (if (ds.isEmpty || keys.isEmpty) = true then none
          else some (keys.map (extractField ds) ++ [f.name])) = some row := h
      by_cases hc : (ds.isEmpty || keys.isEmpty) = true
      · rw [if_pos hc] at h
        exact absurd h (by simp)
      · rw [if_neg hc] at h
        exact ⟨ds, rfl, (Option.some.inj h).symm⟩

theorem mem_dataRows (t : String) (seed : Nat) (re : Bool) (fs : List DicomFile)
    (tf : TagsFile) (keys : List String) (row : List String)
    (htf : tf = TagsFile.loaded keys)
    (hrow : row ∈ tableDataRows (mergerRun t seed re fs tf).result) :
    ∃ ds name, row = keys.map (extractField ds) ++ [name] := by
  rw [mergerRun_result] at hrow
  cases hres : mergerResult (if re then list_dicom_files fs else []) tf seed with
  | completed table =>
      obtain ⟨keys2, htf2, htable⟩ := mergerResult_completed _ _ _ _ hres
      have hk : keys2 = keys := by
        rw [htf] at htf2; exact (TagsFile.loaded.inj htf2).symm
      rw [hres, htable, hk] at hrow
      simp only [tableDataRows, runTable, List.drop_succ_cons, List.drop_zero] at hrow
      obtain ⟨f, _, hpf⟩ := List.mem_filterMap.mp hrow
      obtain ⟨ds, _, hshape⟩ := processFile_some keys f row hpf
      exact ⟨ds, f.name, hshape⟩
  | noInput => rw [hres] at hrow; exact absurd hrow (by simp [tableDataRows])
  | sampleAbort => rw [hres] at hrow; exact absurd hrow (by simp [tableDataRows])
  | noTagsFile => rw [hres] at hrow; exact absurd hrow (by simp [tableDataRows])
  | badTagsJson => rw [hres] at hrow; exact absurd hrow (by simp [tableDataRows])

theorem mergerResult_sampleAbort (files : List DicomFile) (tf : TagsFile) (seed : Nat)
    (hne : files ≠ []) (hlen : files.length < 10) :
    mergerResult files tf seed = .sampleAbort := by
  unfold mergerResult
  have hie : files.isEmpty = false := by
    cases files with
    | nil => exact absurd rfl hne
    | cons a l => rfl
  simp only [hie, Bool.false_eq_true, if_false]
  have hlt : ¬ (10 ≤ (files.map (fun f => f.name)).length) := by
    simp only [List.length_map]
    omega
  unfold pySample
  rw [if_neg hlt]

/-! ### Claim theorems -/

/-- C5: a run in which the File Discoverer finds zero matching files ends in
the `noInput` condition (`return 1` at line 126) before the output file is
opened, so no output file exists as a result of the run. -/
theorem c5_no_input_aborts_before_output (t : String) (seed : Nat) (re : Bool)
    (fs : List DicomFile) (tf : TagsFile) (h : list_dicom_files fs = []) :
    (mergerRun t seed re fs tf).result = RunResult.noInput ∧
    outputFile (mergerRun t seed re fs tf).result = none := by
  have hfiles : (if re then list_dicom_files fs else []) = [] := by
    cases re <;> simp [h]
  constructor
  · rw [mergerRun_result, hfiles]
    rfl
  · rw [mergerRun_result, hfiles]
    rfl

/-- Witness for C5: a root containing one non-matching file. -/
theorem c5_no_input_witness :
    list_dicom_files [⟨"notes.txt", none⟩] = [] ∧
    ((mergerRun "20250101_000000" 7 true [⟨"notes.txt", none⟩] TagsFile.missing).result =
        RunResult.noInput ∧
      outputFile (mergerRun "20250101_000000" 7 true [⟨"notes.txt", none⟩]
          TagsFile.missing).result = none) :=
  ⟨by decide,
   c5_no_input_aborts_before_output "20250101_000000" 7 true
     [⟨"notes.txt", none⟩] TagsFile.missing (by decide)⟩

/-- C9: with at least one but fewer than ten matching files, the debug call
`random.sample(dicom_files, 10)` on line 128 raises `ValueError`, the run
aborts before the output file is opened, and no output file is produced. -/
theorem c9_small_sample_aborts (t : String) (seed : Nat) (fs : List DicomFile)
    (tf : TagsFile) (h1 : 1 ≤ (list_dicom_files fs).length)
    (h2 : (list_dicom_files fs).length < 10) :
    pySample seed ((list_dicom_files fs).map (fun f => f.name)) 10 = none ∧
    (mergerRun t seed true fs tf).result = RunResult.sampleAbort ∧
    outputFile (mergerRun t seed true fs tf).result = none := by
  have hne : list_dicom_files fs ≠ [] := by
    intro hnil
    rw [hnil] at h1
    exact absurd h1 (by simp)
  have habort : mergerResult (list_dicom_files fs) tf seed = .sampleAbort :=
    mergerResult_sampleAbort _ tf seed hne h2
  have hres : (mergerRun t seed true fs tf).result = RunResult.sampleAbort := by
    rw [mergerRun_result]
    exact habort
  refine ⟨?_, hres, by rw [hres]; rfl⟩
  unfold pySample
  rw [if_neg]
  simp only [List.length_map]
  omega

/-- Witness for C9: three matching files. -/
theorem c9_small_sample_witness :
    (1 ≤ (list_dicom_files threeFiles).length ∧
      (list_dicom_files threeFiles).length < 10) ∧
    (pySample 7 ((list_dicom_files threeFiles).map (fun f => f.name)) 10 = none ∧
      (mergerRun "20250101_000000" 7 true threeFiles
          (TagsFile.loaded twoKeys)).result = RunResult.sampleAbort ∧
      outputFile (mergerRun "20250101_000000" 7 true threeFiles
          (TagsFile.loaded twoKeys)).result = none) :=
  ⟨⟨by decide, by decide⟩,
   c9_small_sample_aborts "20250101_000000" 7 threeFiles (TagsFile.loaded twoKeys)
     (by decide) (by decide)⟩

/-- C1 (code bug): on the spec's scenario — exactly three matching files, one
corrupt, a two-field specification with the first field present in every
valid file and the second in none — the code does not produce a header plus
two data rows: the debug `random.sample(dicom_files, 10)` call raises
`ValueError` for the three-element list, the run aborts before
`open(output_dir, 'w')`, and no output table exists at all. -/
theorem c1_three_file_scenario_aborts :
    (mergerRun "20250101_000000" 7 true threeFiles (TagsFile.loaded twoKeys)).result =
      RunResult.sampleAbort ∧
    outputFile (mergerRun "20250101_000000" 7 true threeFiles
        (TagsFile.loaded twoKeys)).result = none := by
  decide

/-- C3 (counterexample): a run whose root path exists never executes
`os.makedirs(os.path.dirname(output_dir), exist_ok=True)` — the call on line
119 is guarded by `not os.path.exists(path_shared_folder)` — even though the
run goes on to write the output file, refuting the claim that every run
ensures the destination's parent directory before the first write. -/
theorem c3_counterexample_root_exists_unprepared :
    (mergerRun "20250101_000000" 0 true tenFiles
        (TagsFile.loaded twoKeys)).outputDirPrepared = false ∧
    (outputFile (mergerRun "20250101_000000" 0 true tenFiles
        (TagsFile.loaded twoKeys)).result).isSome = true := by
  decide

/-- C3 (amended): the destination's parent directory is created only in the
branch where the root path does not exist — a branch in which discovery then
finds nothing and the run aborts with `noInput` before any write; on every
run whose root exists (in particular every run that writes output) no
directory preparation happens. -/
theorem c3_dir_prepared_only_when_root_missing (t : String) (seed : Nat)
    (fs : List DicomFile) (tf : TagsFile) :
    ((mergerRun t seed false fs tf).outputDirPrepared = true ∧
      (mergerRun t seed false fs tf).result = RunResult.noInput) ∧
    (mergerRun t seed true fs tf).outputDirPrepared = false := by
  exact ⟨⟨rfl, rfl⟩, rfl⟩

/-- C4 (counterexample): a fatal zero-files run returns `1` from `main` and is
reported by the `__main__` wrapper as a success, and a run that completes and
writes the table also returns `1` — the failure status is not distinct from
the success status. -/
theorem c4_counterexample_shared_status :
    (mergerRun "t" 0 true [⟨"notes.txt", none⟩] TagsFile.missing).result =
      RunResult.noInput ∧
    mainReturnValue (mergerRun "t" 0 true [⟨"notes.txt", none⟩]
        TagsFile.missing).result = some 1 ∧
    scriptReportsSuccess (mergerRun "t" 0 true [⟨"notes.txt", none⟩]
        TagsFile.missing).result = true ∧
    mainReturnValue (mergerRun "t" 0 true tenFiles
        (TagsFile.loaded twoKeys)).result = some 1 ∧
    (outputFile (mergerRun "t" 0 true tenFiles
        (TagsFile.loaded twoKeys)).result).isSome = true := by
  decide

/-- C4 (amended): every path out of `main` that returns at all — the fatal
branches (no input, missing tags file, undecodable tags file) and successful
completion alike — returns the same value `1` and is reported as a success by
the wrapper; only an uncaught exception (the `random.sample` `ValueError`, or
an I/O error outside this model) yields a failure report. -/
theorem c4_all_return_branches_report_success (t : String) (seed : Nat) (re : Bool)
    (fs : List DicomFile) (tf : TagsFile) :
    (mergerRun t seed re fs tf).result = RunResult.sampleAbort ∨
    (mainReturnValue (mergerRun t seed re fs tf).result = some 1 ∧
      scriptReportsSuccess (mergerRun t seed re fs tf).result = true) := by
  cases h : (mergerRun t seed re fs tf).result with
  | noInput => exact Or.inr ⟨rfl, rfl⟩
  | sampleAbort => exact Or.inl rfl
  | noTagsFile => exact Or.inr ⟨rfl, rfl⟩
  | badTagsJson => exact Or.inr ⟨rfl, rfl⟩
  | completed table => exact Or.inr ⟨rfl, rfl⟩

theorem map_semiSubst_eq_self (cs : List Char) (h : ';' ∉ cs) :
    cs.map (fun c => if c = ';' then ',' else c) = cs := by
  induction cs with
  | nil => rfl
  | cons c rest ih =>
      have hc : ¬ (c = ';') := fun hc => h (by simp [hc])
      have hr : ';' ∉ rest := fun hr => h (by simp [hr])
      simp only [List.map_cons, if_neg hc, ih hr]

theorem replaceSemi_of_no_semi (v : String) (h : ';' ∉ v.data) :
    pyReplaceSemi v = v := by
  cases v with
  | mk data =>
      unfold pyReplaceSemi
      rw [map_semiSubst_eq_self data h]

theorem extractField_found (ds : Dataset) (s : String) (tg : Nat × Nat) (v : String)
    (h1 : convert_string_to_tag s = some tg) (h2 : dsGet ds tg = some v) :
    extractField ds s = pyReplaceSemi v := by
  unfold extractField
  rw [h1]
  show (match dsGet ds tg with
    | none => ""
    | some v => pyReplaceSemi v) = pyReplaceSemi v
  rw [h2]

/-- C2 (counterexample): the `FilePath` column is written verbatim (line 176
stores the path unsanitized, and only tag values pass through the
`replace(';', ',')` on line 172), so a run over a file whose path contains a
`;` writes a data line with more than `len(FieldSpecification) + 1` columns:
here 4 columns against the claimed 3. -/
theorem c2_counterexample_semicolon_in_path :
    ["Alice", "", "a;b.dcm"] ∈ tableDataRows
      (mergerRun "t" 0 true semiPathFiles (TagsFile.loaded twoKeys)).result ∧
    numColumns (joinCells ["Alice", "", "a;b.dcm"]) = 4 ∧
    twoKeys.length + 1 = 3 := by
  decide

/-- C2 (amended): every data line written by a run whose `FilePath` cell
contains no `;` character has exactly `len(FieldSpecification) + 1`
delimiter-separated columns — extracted field values cannot contribute a
delimiter, even when the original value contained one, because of the
substitution on line 172; only an unsanitized path can. -/
theorem c2_column_count_with_clean_path (t : String) (seed : Nat) (re : Bool)
    (fs : List DicomFile) (tf : TagsFile) (keys : List String) (row : List String)
    (htf : tf = TagsFile.loaded keys)
    (hrow : row ∈ tableDataRows (mergerRun t seed re fs tf).result)
    (hpath : semiCount (row.getLastD "") = 0) :
    numColumns (joinCells row) = keys.length + 1 := by
  obtain ⟨ds, name, hshape⟩ := mem_dataRows t seed re fs tf keys row htf hrow
  subst hshape
  rw [List.getLastD_concat] at hpath
  have hcells : ∀ c ∈ keys.map (extractField ds), semiCount c = 0 := by
    intro c hc
    obtain ⟨s, _, rfl⟩ := List.mem_map.mp hc
    exact semiCount_extractField ds s
  unfold numColumns
  rw [semiCount_joinCells _ _ hcells, hpath, List.length_map]

/-- Witness for C2 (amended): the first data row of a ten-file run with the
two-field specification. -/
theorem c2_column_count_witness :
    (["Alice", "", "f0.dcm"] ∈ tableDataRows
        (mergerRun "t" 0 true tenFiles (TagsFile.loaded twoKeys)).result ∧
      semiCount (["Alice", "", "f0.dcm"].getLastD "") = 0) ∧
    numColumns (joinCells ["Alice", "", "f0.dcm"]) = twoKeys.length + 1 :=
  ⟨⟨by decide, by decide⟩,
   c2_column_count_with_clean_path "t" 0 true tenFiles (TagsFile.loaded twoKeys)
     twoKeys ["Alice", "", "f0.dcm"] rfl (by decide) (by decide)⟩

/-- C6 (code bug): the per-field recovery the claim describes is not what the
program does on a successfully parsed file whose metadata section is empty.
The debug f-string on line 159 indexes `ds_keys[0]` and
`list(selected_tags.keys())[0]` before the field loop ever runs; for an empty
dataset (or an empty Field Specification) that indexing raises `IndexError`,
the per-file handler at line 180 catches it, and the whole file is skipped.
So `empty.dcm` — parseable, both specified fields merely absent — yields no
row at all, where the claim says every absent field becomes an empty-string
cell in a still-written Record: a ten-file run with `empty.dcm` last
completes with only nine data rows, `extractField` itself would have
recovered each absent field to `""` exactly as claimed. -/
theorem c6_empty_dataset_file_skipped :
    processFile twoKeys ⟨"empty.dcm", some []⟩ = none ∧
    processFile [] ⟨"f0.dcm", some dsAlice⟩ = none ∧
    extractField [] "(0010,0010)" = "" ∧
    extractField [] "(0020,000D)" = "" ∧
    tableDataRows (mergerRun "t" 0 true emptyMetaFiles
        (TagsFile.loaded twoKeys)).result =
      [["Alice", "", "f0.dcm"], ["Alice", "", "f1.dcm"], ["Alice", "", "f2.dcm"],
       ["Alice", "", "f3.dcm"], ["Alice", "", "f4.dcm"], ["Alice", "", "f5.dcm"],
       ["Alice", "", "f6.dcm"], ["Alice", "", "f7.dcm"], ["Alice", "", "f8.dcm"]] := by
  decide

/-- C7: an extracted value is written as its display string with every `;`
replaced by `,` — so a cell written for a found tag is exactly the
substituted string, the substituted string never contains `;`, and the
spec's example value `A;B` comes out as `A,B`. -/
theorem c7_semicolon_replaced_by_comma :
    (∀ (ds : Dataset) (s : String) (tg : Nat × Nat) (v : String),
        convert_string_to_tag s = some tg → dsGet ds tg = some v →
        extractField ds s = pyReplaceSemi v) ∧
    pyReplaceSemi "A;B" = "A,B" ∧
    (∀ v : String, ';' ∉ (pyReplaceSemi v).data) := by
  refine ⟨extractField_found, by decide, ?_⟩
  intro v
  exact List.count_eq_zero.mp (semiCount_replaceSemi v)

/-- Witness for C7: the value `A;B` stored under tag `(0008,0008)`. -/
theorem c7_replacement_witness :
    extractField [((8, 8), "A;B")] "(0008,0008)" = pyReplaceSemi "A;B" ∧
    pyReplaceSemi "A;B" = "A,B" :=
  ⟨c7_semicolon_replaced_by_comma.1 [((8, 8), "A;B")] "(0008,0008)" (8, 8) "A;B"
     (by decide) (by decide),
   c7_semicolon_replaced_by_comma.2.1⟩

theorem mergerResult_seed_irrelevant (files : List DicomFile) (tf : TagsFile)
    (s1 s2 : Nat) : mergerResult files tf s1 = mergerResult files tf s2 := by
  unfold mergerResult
  by_cases he : files.isEmpty = true
  · rw [if_pos he, if_pos he]
  · rw [if_neg he, if_neg he]
    unfold pySample
    by_cases hl : 10 ≤ (files.map (fun f => f.name)).length
    · rw [if_pos hl, if_pos hl]
    · rw [if_neg hl, if_neg hl]

/-- C8: the bytes of the output table are a function of the filesystem
contents and the tags file alone — two runs differing only in wall-clock
start time and random seed produce identical output — while the timestamp
reaches only the log path, never the table. -/
theorem c8_output_independent_of_time_and_seed (re : Bool) (fs : List DicomFile)
    (tf : TagsFile) (t1 t2 : String) (seed1 seed2 : Nat) :
    outputFile (mergerRun t1 seed1 re fs tf).result =
      outputFile (mergerRun t2 seed2 re fs tf).result ∧
    (mergerRun t1 seed1 re fs tf).logPath = "logs/" ++ t1 ++ "_merger.log" := by
  refine ⟨?_, rfl⟩
  rw [mergerRun_result, mergerRun_result,
    mergerResult_seed_irrelevant (if re then list_dicom_files fs else []) tf seed1 seed2]

/-- C10: each output cell is the value's display string with `;` mapped to
`,` and every other character (newlines included) unaltered — same length,
pointwise substitution — and the writer concatenates cells into the file
without quoting or escaping, so a newline inside a value lands verbatim in
the file's bytes. -/
theorem c10_cell_transformation_pointwise :
    (∀ (v : String) (i : Nat),
        (pyReplaceSemi v).data.getD i ' ' =
          (if v.data.getD i ' ' = ';' then ',' else v.data.getD i ' ')) ∧
    (∀ v : String, (pyReplaceSemi v).data.length = v.data.length) ∧
    (∀ (ds : Dataset) (s : String) (tg : Nat × Nat) (v : String),
        convert_string_to_tag s = some tg → dsGet ds tg = some v →
        extractField ds s = pyReplaceSemi v) ∧
    extractField [((8, 8), "A\nB")] "(0008,0008)" = "A\nB" ∧
    (∀ s : String, fileContent [[s]] = s ++ "\n") := by
  refine ⟨?_, ?_, extractField_found, by decide, ?_⟩
  · intro v i
    have hdata : (pyReplaceSemi v).data =
        v.data.map (fun c => if c = ';' then ',' else c) := rfl
    rw [hdata]
    rcases Nat.lt_or_ge i v.data.length with h | h
    · rw [List.getD_eq_getElem _ _ h, List.getD_eq_getElem _ _ (by simpa using h),
        List.getElem_map]
    · rw [List.getD_eq_default _ _ h, List.getD_eq_default _ _ (by simpa using h)]
      simp
  · intro v
    simp [pyReplaceSemi]
  · intro s
    show String.join [joinCells [s] ++ "\n"] = s ++ "\n"
    cases s with
    | mk data => rfl

/-- Witness for C10: pointwise substitution at position 1 of `A;B`, and the
cell written for a value holding a `;`. -/
theorem c10_cell_witness :
    (pyReplaceSemi "A;B").data.getD 1 ' ' =
      (if "A;B".data.getD 1 ' ' = ';' then ',' else "A;B".data.getD 1 ' ') ∧
    extractField [((8, 8), "X;Y")] "(0008,0008)" = pyReplaceSemi "X;Y" :=
  ⟨c10_cell_transformation_pointwise.1 "A;B" 1,
   c10_cell_transformation_pointwise.2.2.1 [((8, 8), "X;Y")] "(0008,0008)" (8, 8)
     "X;Y" (by decide) (by decide)⟩

end Merger
